import Mathlib

/-!
Verification of the bot-manager repository: shallow embedding of
`alerts.py`, `repo_manager.py`, `process_manager.py` and the lifecycle /
provisioning / telemetry handlers of `app.py`, with theorems settling the
frozen claims about the natural-language specification.
-/

/-! ## Generic string helpers (Python `in` on `str` is contiguous-substring) -/

/-- `listStartsWith n h` : does `h` start with `n` (exact)? -/
def listStartsWith : List Char → List Char → Bool
  | [], _ => true
  | _ :: _, [] => false
  | n :: ns, h :: hs => (n == h) && listStartsWith ns hs

/-- `listContains n h` : does `n` occur contiguously inside `h`?
Mirrors Python's `n in h` on strings (empty needle always contained). -/
def listContains (needle : List Char) : List Char → Bool
  | [] => needle.isEmpty
  | c :: rest => listStartsWith needle (c :: rest) || listContains needle rest

/-- Python `needle in hay` on `str`. -/
def isSubstring (needle hay : String) : Bool :=
  listContains needle.toList hay.toList

/-! ## alerts.py -/

namespace Alerts

/-- `c` matches pattern char `p` under `re.IGNORECASE`: the pattern chars we
use are lowercase letters or a backslash, so lowering the input suffices. -/
def ciStartsWith : List Char → List Char → Bool
  | [], _ => true
  | _ :: _, [] => false
  | p :: ps, c :: cs => (c.toLower == p) && ciStartsWith ps cs

/-- The character sequence the compiled pattern
`re.compile(r"\\b(error|exception|traceback)\\b", re.IGNORECASE)` demands
around each word: the source's raw string `r"\\b"` denotes the two
characters backslash, `b`, which the regex engine reads as an escaped
literal backslash followed by a literal `b`. -/
def buggyPattern (w : String) : List Char :=
  '\\' :: 'b' :: (w.toList ++ ['\\', 'b'])

/-- Length of the alternative of `_error_regex` matching at the head of the
input, if any (the three words differ within their first two letters, so at
most one alternative matches at a given position). -/
def matchLenAt (s : List Char) : Option Nat :=
  if ciStartsWith (buggyPattern "error") s then some (buggyPattern "error").length
  else if ciStartsWith (buggyPattern "exception") s then some (buggyPattern "exception").length
  else if ciStartsWith (buggyPattern "traceback") s then some (buggyPattern "traceback").length
  else none

/-- Leftmost, non-overlapping scan of `re.findall`, counting matches; the
fuel argument bounds the recursion (one unit per consumed character). -/
def countMatchesAux : Nat → List Char → Nat
  | 0, _ => 0
  | _ + 1, [] => 0
  | fuel + 1, c :: rest =>
    match matchLenAt (c :: rest) with
    | some n => 1 + countMatchesAux fuel ((c :: rest).drop n)
    | none => countMatchesAux fuel rest

/-- `len(_error_regex.findall(text))`. -/
def findallCount (s : List Char) : Nat :=
  countMatchesAux s.length s

/-- Modelled from the spec: "count case-insensitive occurrences of a small
fixed set of error-indicating words" — occurrences of the words themselves,
without the literal backslash-`b` framing the code's pattern demands. -/
def specMatchLenAt (s : List Char) : Option Nat :=
  if ciStartsWith ("error".toList) s then some ("error".toList).length
  else if ciStartsWith ("exception".toList) s then some ("exception".toList).length
  else if ciStartsWith ("traceback".toList) s then some ("traceback".toList).length
  else none

/-- Modelled from the spec: leftmost non-overlapping count of the error
words themselves. -/
def specCountAux : Nat → List Char → Nat
  | 0, _ => 0
  | _ + 1, [] => 0
  | fuel + 1, c :: rest =>
    match specMatchLenAt (c :: rest) with
    | some n => 1 + specCountAux fuel ((c :: rest).drop n)
    | none => specCountAux fuel rest

/-- Modelled from the spec: intended match count of the scanner. -/
def specWordCount (s : List Char) : Nat :=
  specCountAux s.length s

/-- `_log_offsets.get(log_path, 0)`. -/
def offsetsGet (offs : List (String × Nat)) (p : String) : Nat :=
  match offs.find? (fun e => e.1 == p) with
  | some e => e.2
  | none => 0

/-- `_log_offsets[log_path] = v`. -/
def offsetsSet (offs : List (String × Nat)) (p : String) (v : Nat) : List (String × Nat) :=
  if offs.any (fun e => e.1 == p) then
    offs.map (fun e => if e.1 == p then (p, v) else e)
  else
    offs ++ [(p, v)]

/-- Filesystem view seen by one `scan_log_for_errors` call: whether the log
file exists, its byte content (as decoded characters; the counterexamples
are ASCII, where `decode("utf-8", errors="ignore")` is the identity), and
whether opening/reading raises. -/
structure ScanEnv where
  present : Bool
  content : List Char
  readFails : Bool

/-- `scan_log_for_errors` of `alerts.py`: returns `((new_offset, matches),
updated offset table)`.  A missing file or a read exception returns the
stored offset and zero matches; otherwise it seeks to the stored offset,
reads the remainder (`drop`), advances the offset by the bytes read and
counts regex matches in the newly read text. -/
def scan_log_for_errors (env : ScanEnv) (offs : List (String × Nat)) (logPath : String) :
    (Nat × Nat) × List (String × Nat) :=
  if env.present = false then ((offsetsGet offs logPath, 0), offs)
  else if env.readFails then ((offsetsGet offs logPath, 0), offs)
  else
    let start := offsetsGet offs logPath
    let data := env.content.drop start
    let newOffset := start + data.length
    let nMatches := findallCount data
    ((newOffset, nMatches), offsetsSet offs logPath newOffset)

end Alerts

/-! ## repo_manager.py -/

namespace RepoManager

/-- `GitCommandError` raised by a failed `Repo.clone_from`. -/
structure GitError where
  msg : String
deriving DecidableEq

/-- Result of `clone_or_open_repo`: an existing checkout opened in place, a
fresh clone obtained at the given branch argument (`none` = the
repository's own default branch), or a propagated error. -/
inductive CloneOutcome where
  | opened
  | cloned (branch : Option String)
  | raised (e : GitError)
deriving DecidableEq

/-- Environment of one `clone_or_open_repo` call: whether
`workdir/.git` exists, whether `Repo(workdir)` opens without
`InvalidGitRepositoryError`/`NoSuchPathError`, and the outcome of
`Repo.clone_from` for each branch argument. -/
structure CloneEnv where
  hasGitDir : Bool
  openOk : Bool
  clone : Option String → Except GitError Unit

def POSSIBLE_BRANCHES : List String := ["master", "main"]

/-- `[branch] + [b for b in POSSIBLE_BRANCHES if b != branch] + [None]`. -/
def candidates (branch : String) : List (Option String) :=
  some branch :: (POSSIBLE_BRANCHES.filter (fun b => b ≠ branch)).map some ++ [none]

/-- One loop iteration's clone call: `if br:` treats an empty branch name
as falsy, cloning without a branch argument. -/
def cloneAttempt (env : CloneEnv) (br : Option String) : Except GitError Unit :=
  match br with
  | some b => if b = "" then env.clone none else env.clone (some b)
  | none => env.clone none

/-- Does the attempt at candidate `br` raise `GitCommandError`? -/
def attemptFails (env : CloneEnv) (br : Option String) : Bool :=
  match cloneAttempt env br with
  | .ok _ => false
  | .error _ => true

/-- The `for br in candidates` loop: returns the first successful clone;
each failure overwrites `last_error`; when the list is exhausted the held
`last_error` is raised (the final `return Repo(workdir)` is only reachable
with no recorded error, i.e. never from a non-empty candidate list). -/
def tryCandidates (env : CloneEnv) : List (Option String) → Option GitError → CloneOutcome
  | [], lastError =>
    match lastError with
    | some e => .raised e
    | none => .opened
  | br :: rest, _ =>
    match cloneAttempt env br with
    | .ok _ => .cloned br
    | .error e => tryCandidates env rest (some e)

/-- `clone_or_open_repo` of `repo_manager.py` (the directory-cleanup walk
has no effect on the modelled state). -/
def clone_or_open_repo (env : CloneEnv) (branch : String) : CloneOutcome :=
  if env.hasGitDir && env.openOk then .opened
  else tryCandidates env (candidates branch) none

/-- A clone environment in which every attempt fails, each error naming the
branch argument it was raised for. -/
def envAllFail : CloneEnv :=
  { hasGitDir := false, openOk := false,
    clone := fun br => .error ⟨match br with | some b => b | none => "default"⟩ }

/-- A clone environment in which only the attempt at branch `master`
succeeds. -/
def envMasterOnly : CloneEnv :=
  { hasGitDir := false, openOk := true,
    clone := fun br => if br = some "master" then .ok () else .error ⟨"e"⟩ }

end RepoManager

/-! ## process_manager.py -/

namespace ProcessManager

/-- A signal delivered to a process. -/
inductive Sig where
  | sigterm (pid : Nat)
  | sigkill (pid : Nat)
deriving DecidableEq

/-- OS view seen by one `stop_bot_process` call: whether `psutil.Process p`
succeeds (no `NoSuchProcess`), the recursive child list of a pid, whether a
child's `terminate()` raises (errors per child are swallowed), and whether
`wait(timeout=10)` times out on the target. -/
structure ProcEnv where
  alive : Nat → Bool
  children : Nat → List Nat
  childTermRaises : Nat → Bool
  waitTimesOut : Bool

/-- `stop_bot_process` of `process_manager.py`, recorded as the list of
signals it delivers: an absent pid returns immediately with none;
otherwise each child is terminated (best-effort), then the target receives
a graceful termination signal, escalated to a kill if the bounded wait
times out. -/
def stop_bot_process (env : ProcEnv) (pid : Nat) : List Sig :=
  if env.alive pid = false then []
  else
    ((env.children pid).filterMap (fun c =>
        if env.childTermRaises c then none else some (Sig.sigterm c)))
      ++ [Sig.sigterm pid]
      ++ (if env.waitTimesOut then [Sig.sigkill pid] else [])

/-- An OS view with no live process at all. -/
def envDead : ProcEnv :=
  { alive := fun _ => false, children := fun _ => [], childTermRaises := fun _ => false,
    waitTimesOut := false }

end ProcessManager

/-! ## app.py — bot record and lifecycle handlers -/

namespace App

/-- The fields of the persisted `Bot` row that the modelled handlers read
or write (timestamps abstracted to naturals). -/
structure Bot where
  setup_status : String
  status : String
  process_pid : Option Nat
  enabled : Bool
  last_commit : Option String
  last_started_at : Option Nat
  last_stopped_at : Option Nat
  stats_last_activity : Option Nat
deriving DecidableEq

/-- An externally visible process operation performed by a handler. -/
inductive Action where
  | spawn
  | terminate (pid : Nat)
deriving DecidableEq

/-- Where the handler redirects the browser. -/
inductive Redirect where
  | dashboard
  | setupProgress
  | botDetail
deriving DecidableEq

/-- Runtime environment of a lifecycle handler call: the
`is_process_running` oracle, the pid a successful spawn returns, and the
current time. -/
structure HandlerEnv where
  isRunning : Option Nat → Bool
  spawnPid : Nat
  now : Nat

/-- Result of a handler: the persisted bot row (`none` when the bot did not
exist), the process operations performed, and the redirect target. -/
structure HandlerResult where
  bot : Option Bot
  actions : List Action
  redirect : Redirect
deriving DecidableEq

/-- Python truthiness of `bot.process_pid` (`None` and `0` falsy). -/
def pidTruthy : Option Nat → Bool
  | some p => p ≠ 0
  | none => false

/-- The `if bot.process_pid: stop_bot_process(bot.process_pid)` prologue of
`restart_bot` / `stop_bot`. -/
def stopActions (pid : Option Nat) : List Action :=
  match pid with
  | some p => if p ≠ 0 then [Action.terminate p] else []
  | none => []

/-- `start_bot` of `app.py`: not-found redirects to the dashboard; a bot
whose `setup_status` is not `done` is redirected to the setup page with no
action and no mutation; an already-running bot is left alone; otherwise a
process is spawned and pid/status/timestamps are updated. -/
def start_bot (env : HandlerEnv) (b : Option Bot) : HandlerResult :=
  match b with
  | none => ⟨none, [], .dashboard⟩
  | some bot =>
    if bot.setup_status ≠ "done" then ⟨some bot, [], .setupProgress⟩
    else if env.isRunning bot.process_pid then ⟨some bot, [], .botDetail⟩
    else ⟨some { bot with
                 process_pid := some env.spawnPid
                 status := "running"
                 last_started_at := some env.now
                 stats_last_activity := some env.now },
          [.spawn], .botDetail⟩

/-- `restart_bot` of `app.py`: stops the recorded process if any, then
spawns afresh and updates pid/status/timestamps — with no check of
`setup_status`. -/
def restart_bot (env : HandlerEnv) (b : Option Bot) : HandlerResult :=
  match b with
  | none => ⟨none, [], .dashboard⟩
  | some bot =>
    ⟨some { bot with
            process_pid := some env.spawnPid
            status := "running"
            last_started_at := some env.now
            stats_last_activity := some env.now },
     stopActions bot.process_pid ++ [.spawn], .botDetail⟩

/-- `stop_bot` of `app.py`: terminates the recorded process if any, clears
the pid, marks the bot stopped and stamps `last_stopped_at` — with no check
of `setup_status`. -/
def stop_bot (env : HandlerEnv) (b : Option Bot) : HandlerResult :=
  match b with
  | none => ⟨none, [], .dashboard⟩
  | some bot =>
    ⟨some { bot with
            process_pid := none
            status := "stopped"
            last_stopped_at := some env.now },
     stopActions bot.process_pid, .botDetail⟩

/-- A bot whose provisioning is still running. -/
def botR : Bot :=
  { setup_status := "running", status := "stopped", process_pid := some 7, enabled := true,
    last_commit := none, last_started_at := none, last_stopped_at := none,
    stats_last_activity := none }

/-- A handler environment for the concrete runs. -/
def envH : HandlerEnv :=
  { isRunning := fun _ => false, spawnPid := 99, now := 1000 }

end App

/-! ## app.py — environment-file materialization -/

namespace App

/-- The `.env` text built by `_run_bot_setup` (step 2): `BOT_TOKEN`,
`MANAGER_URL` and `BOT_ID` are appended only when the key string does not
already occur as a substring of the text accumulated so far, while
`DATABASE_URL` is appended unconditionally whenever a database URL is set
(`if bot.db_url:`, empty string falsy). -/
def buildEnvSetup (envText token : String) (dbUrl : Option String) (managerUrl : String)
    (botId : Nat) : String :=
  let e1 := if isSubstring "BOT_TOKEN" envText then envText
            else envText ++ (if envText = "" then "" else "\n") ++ "BOT_TOKEN=" ++ token
  let e2 := match dbUrl with
            | some u => if u = "" then e1 else e1 ++ "\nDATABASE_URL=" ++ u
            | none => e1
  let e3 := if isSubstring "MANAGER_URL" e2 then e2
            else e2 ++ "\nMANAGER_URL=" ++ managerUrl
  let e4 := if isSubstring "BOT_ID" e3 then e3
            else e3 ++ "\nBOT_ID=" ++ toString botId
  e4

/-- The `.env` text rewritten by `edit_bot`: same as the provisioning
variant except that the `DATABASE_URL` injection is also guarded by the
key string not occurring yet. -/
def buildEnvEdit (envText token : String) (dbUrl : Option String) (managerUrl : String)
    (botId : Nat) : String :=
  let e1 := if isSubstring "BOT_TOKEN" envText then envText
            else envText ++ (if envText = "" then "" else "\n") ++ "BOT_TOKEN=" ++ token
  let e2 := match dbUrl with
            | some u => if u = "" then e1
                        else if isSubstring "DATABASE_URL" e1 then e1
                        else e1 ++ "\nDATABASE_URL=" ++ u
            | none => e1
  let e3 := if isSubstring "MANAGER_URL" e2 then e2
            else e2 ++ "\nMANAGER_URL=" ++ managerUrl
  let e4 := if isSubstring "BOT_ID" e3 then e3
            else e3 ++ "\nBOT_ID=" ++ toString botId
  e4

end App

/-! ## app.py — provisioning run, manual repo update, telemetry -/

namespace App

/-- The fields of the bot row that `_run_bot_setup` reads or writes (the
human-readable progress message and the step total are not modelled; the
`venv_path` bookkeeping of step 7 has no observable effect on them). -/
structure SetupBot where
  setup_status : String
  setup_step : Nat
  status : String
  process_pid : Option Nat
  last_commit : Option String
  last_started_at : Option Nat
deriving DecidableEq

/-- Which fallible external operations of a provisioning run raise: the
clone (step 1), the `.env` write (step 2), `create_virtualenv` (step 3),
the venv-python resolution check and the pip self-upgrade (step 4), the
dependency install when a manifest exists (step 5), and the final
auto-start spawn; plus the data the successful operations produce. -/
structure SetupEnv where
  cloneFails : Bool
  cloneCommit : Option String
  envWriteFails : Bool
  venvFails : Bool
  venvPythonMissing : Bool
  pipUpgradeFails : Bool
  reqExists : Bool
  pipInstallFails : Bool
  spawnFails : Bool
  spawnPid : Nat
  now : Nat

/-- `_update_progress`: persists the step counter and the setup status. -/
def updateProgress (b : SetupBot) (step : Nat) (st : String) : SetupBot :=
  { b with setup_step := step, setup_status := st }

/-- The handler of an exception escaping steps 1–9: writes step 10 /
`failed` and marks the bot `errored`. -/
def setupFailed (b : SetupBot) (tr : List String) : SetupBot × List String :=
  ({ updateProgress b 10 "failed" with status := "errored" }, tr ++ ["failed"])

/-- `_run_bot_setup` of `app.py`: each step persists progress with status
`running` before executing; an exception from any step jumps to the
handler (`setupFailed`); the step-10 write carries status `done`; after it
the auto-start is attempted, and its failure only downgrades `status` to
`stopped`.  Returns the final row and the ordered list of `setup_status`
values the run persisted. -/
def runBotSetup (env : SetupEnv) (b0 : SetupBot) : SetupBot × List String :=
  let b := updateProgress b0 1 "running"
  let tr := ["running"]
  if env.cloneFails then setupFailed b tr else
  let b := { b with last_commit := env.cloneCommit }
  let b := updateProgress b 2 "running"
  let tr := tr ++ ["running"]
  if env.envWriteFails then setupFailed b tr else
  let b := updateProgress b 3 "running"
  let tr := tr ++ ["running"]
  if env.venvFails then setupFailed b tr else
  let b := updateProgress b 4 "running"
  let tr := tr ++ ["running"]
  if env.venvPythonMissing then setupFailed b tr else
  if env.pipUpgradeFails then setupFailed b tr else
  let b := updateProgress b 5 "running"
  let tr := tr ++ ["running"]
  if env.reqExists && env.pipInstallFails then setupFailed b tr else
  let b := updateProgress b 6 "running"
  let tr := tr ++ ["running"]
  let b := updateProgress b 7 "running"
  let tr := tr ++ ["running"]
  let b := updateProgress b 8 "running"
  let tr := tr ++ ["running"]
  let b := updateProgress b 9 "running"
  let tr := tr ++ ["running"]
  let b := updateProgress b 10 "done"
  let tr := tr ++ ["done"]
  if env.spawnFails then ({ b with status := "stopped" }, tr)
  else ({ b with
          process_pid := some env.spawnPid
          status := "running"
          last_started_at := some env.now }, tr)

/-- The bot row as `create_bot` inserts it before spawning the setup
thread: `status="setting_up"`, `setup_status="running"`, step 0. -/
def createBotRow : SetupBot :=
  { setup_status := "running", setup_step := 0, status := "setting_up",
    process_pid := none, last_commit := none, last_started_at := none }

/-- The forward edges of the provisioning state machine (a rewrite of the
same value is not a move, so equality is allowed). -/
def allowedEdge (a b : String) : Bool :=
  (a == b) || (a == "pending" && b == "running")
    || (a == "running" && (b == "done" || b == "failed"))

/-- A run in which all provisioning steps succeed and only the final
auto-start spawn fails. -/
def envSpawnFail : SetupEnv :=
  { cloneFails := false, cloneCommit := some "abc", envWriteFails := false,
    venvFails := false, venvPythonMissing := false, pipUpgradeFails := false,
    reqExists := true, pipInstallFails := false, spawnFails := true,
    spawnPid := 50, now := 7 }

/-- Outcomes of the external operations of one `update_repo` call: whether
`clone_or_open_repo` and `pull_latest` raise, the before/after revisions
the pull reports, the liveness oracle, and whether stop/spawn raise. -/
structure UpdateEnv where
  cloneOk : Bool
  pullOk : Bool
  before : Option String
  after : Option String
  isRunning : Option Nat → Bool
  stopRaises : Bool
  spawnOk : Bool
  spawnPid : Nat
  now : Nat

/-- Flash category shown to the caller. -/
inductive Flash where
  | success
  | info
  | danger
deriving DecidableEq

/-- `update_repo` of `app.py` (bot found): clones/opens, pulls, and when
the revision changed, restarts an enabled bot and commits; any exception
inside the `try` is answered by `db.rollback()` and a danger flash with
the error text, leaving the persisted row exactly as before. -/
def update_repo (env : UpdateEnv) (bot : Bot) : Bot × Flash :=
  if env.cloneOk = false then (bot, .danger)
  else if env.pullOk = false then (bot, .danger)
  else if env.before ≠ env.after then
    if bot.enabled then
      if pidTruthy bot.process_pid && env.isRunning bot.process_pid then
        if env.stopRaises then (bot, .danger)
        else if env.spawnOk = false then (bot, .danger)
        else ({ bot with
                last_commit := env.after
                process_pid := some env.spawnPid
                status := "running"
                last_started_at := some env.now }, .success)
      else if env.spawnOk = false then (bot, .danger)
      else ({ bot with
              last_commit := env.after
              process_pid := some env.spawnPid
              status := "running"
              last_started_at := some env.now }, .success)
    else ({ bot with last_commit := env.after }, .success)
  else (bot, .info)

/-- An update environment whose pull raises (e.g. a network error). -/
def envPullFail : UpdateEnv :=
  { cloneOk := true, pullOk := false, before := none, after := some "h",
    isRunning := fun _ => false, stopRaises := false, spawnOk := true,
    spawnPid := 3, now := 9 }

/-- Python `a or b` on the two token sources (an empty string is falsy). -/
def pyOr (a b : Option String) : Option String :=
  match a with
  | some s => if s = "" then b else some s
  | none => b

/-- `req_token = request.headers.get("X-Bot-Token") or
request.args.get("token")` followed by
`if req_token and req_token != bot.token` — true when the request is
rejected with 401. -/
def tokenRejected (headerTok queryTok : Option String) (botToken : String) : Bool :=
  match pyOr headerTok queryTok with
  | some t => (t != "") && (t != botToken)
  | none => false

/-- HTTP outcome of a telemetry endpoint. -/
inductive ApiResp where
  | notFound
  | unauthorized
  | ok
deriving DecidableEq

/-- The per-bot aggregate counters. -/
structure Stats where
  messages : Int
  users : Int
deriving DecidableEq

/-- `api_stats_increment` of `app.py`: 404 for a missing bot, optional
lightweight token auth, then the counter update (`users_is_total` takes a
max instead of adding). -/
def api_stats_increment (bot : Option (String × Stats)) (headerTok queryTok : Option String)
    (incMessages incUsers : Int) (usersIsTotal : Bool) : ApiResp × Option Stats :=
  match bot with
  | none => (.notFound, none)
  | some (tok, st) =>
    if tokenRejected headerTok queryTok tok then (.unauthorized, some st)
    else (.ok, some { messages := st.messages + incMessages
                      users := if usersIsTotal then max st.users incUsers
                               else st.users + incUsers })

/-- A stored telemetry message row. -/
structure Message where
  user_id : Option Int
  chat_id : Option Int
  message_type : String
  text : String
deriving DecidableEq

/-- `api_ingest_message` of `app.py`: 404 for a missing bot, the same
token check, then a message row is stored (`(type or "text")[:32]`,
`(text or "")[:10000]`). -/
def api_ingest_message (bot : Option String) (headerTok queryTok : Option String)
    (userId chatId : Option Int) (mtype mtext : Option String) :
    ApiResp × Option Message :=
  match bot with
  | none => (.notFound, none)
  | some tok =>
    if tokenRejected headerTok queryTok tok then (.unauthorized, none)
    else (.ok, some { user_id := userId
                      chat_id := chatId
                      message_type := ((pyOr mtype (some "text")).getD "text").take 32
                      text := ((pyOr mtext (some "")).getD "").take 10000 })

end App

/-- C1: the scanner is claimed to report `match_count >= 1` whenever the
bytes appended since the stored offset contain the word "error"
(case-insensitively), with the returned offset equal to the file's new
length.  The offset part holds, but the compiled pattern is
`r"\\b(error|exception|traceback)\\b"`, whose `r"\\b"` is a literal
backslash followed by `b`, not a word boundary: on a log whose appended
text is `"error happened"` the scan returns the correct new offset 14 yet
zero matches, while the text does contain "error" and the spec-intended
word count is 1. -/
theorem scan_misses_error_word :
    listContains ("error".toList) ("error happened".toList) = true ∧
    (Alerts.scan_log_for_errors ⟨true, "error happened".toList, false⟩ [] "bot.log").1
      = (14, 0) ∧
    Alerts.specWordCount ("error happened".toList) = 1 := by
  refine ⟨by decide, by decide, by decide⟩

/-- C10: the offset returned by `scan_log_for_errors` is never below the
offset stored for that path before the call — for a missing file and for a
read failure the stored offset is returned unchanged, and otherwise the
returned offset is the stored offset plus the number of bytes read. -/
theorem scan_offset_monotone (env : Alerts.ScanEnv) (offs : List (String × Nat)) (p : String) :
    Alerts.offsetsGet offs p ≤ (Alerts.scan_log_for_errors env offs p).1.1 := by
  unfold Alerts.scan_log_for_errors
  split
  · exact Nat.le_refl _
  · split
    · exact Nat.le_refl _
    · exact Nat.le_add_right _ _

/-- Helper: the loop returns the first successful candidate, regardless of
the error accumulated so far. -/
theorem tryCandidates_first_success (env : RepoManager.CloneEnv) :
    ∀ (pre : List (Option String)) (br : Option String) (post : List (Option String))
      (lastErr : Option RepoManager.GitError),
      (∀ b ∈ pre, RepoManager.attemptFails env b = true) →
      RepoManager.attemptFails env br = false →
      RepoManager.tryCandidates env (pre ++ br :: post) lastErr
        = RepoManager.CloneOutcome.cloned br := by
  intro pre
  induction pre with
  | nil =>
    intro br post lastErr _ hbr
    unfold RepoManager.attemptFails at hbr
    simp only [List.nil_append, RepoManager.tryCandidates]
    cases h : RepoManager.cloneAttempt env br with
    | ok v => rfl
    | error e => rw [h] at hbr; simp at hbr
  | cons b pre ih =>
    intro br post lastErr hpre hbr
    have hb : RepoManager.attemptFails env b = true := hpre b (List.mem_cons_self _ _)
    unfold RepoManager.attemptFails at hb
    simp only [List.cons_append, RepoManager.tryCandidates]
    cases h : RepoManager.cloneAttempt env b with
    | ok v => rw [h] at hb; simp at hb
    | error e =>
      exact ih br post (some e) (fun x hx => hpre x (List.mem_cons_of_mem _ hx)) hbr

/-- Helper: when every candidate fails, the loop raises the error of the
last attempt. -/
theorem tryCandidates_all_fail (env : RepoManager.CloneEnv) :
    ∀ (pre : List (Option String)) (lastBr : Option String) (e : RepoManager.GitError)
      (lastErr : Option RepoManager.GitError),
      (∀ b ∈ pre, RepoManager.attemptFails env b = true) →
      RepoManager.cloneAttempt env lastBr = .error e →
      RepoManager.tryCandidates env (pre ++ [lastBr]) lastErr
        = RepoManager.CloneOutcome.raised e := by
  intro pre
  induction pre with
  | nil =>
    intro lastBr e lastErr _ hlast
    simp only [List.nil_append, RepoManager.tryCandidates]
    rw [hlast]
  | cons b pre ih =>
    intro lastBr e lastErr hpre hlast
    have hb : RepoManager.attemptFails env b = true := hpre b (List.mem_cons_self _ _)
    unfold RepoManager.attemptFails at hb
    simp only [List.cons_append, RepoManager.tryCandidates]
    cases h : RepoManager.cloneAttempt env b with
    | ok v => rw [h] at hb; simp at hb
    | error eb =>
      exact ih lastBr e (some eb) (fun x hx => hpre x (List.mem_cons_of_mem _ hx)) hlast

/-- C3 counterexample: with no valid checkout and every clone attempt
failing (each error naming its branch argument), a call requesting branch
`"dev"` raises the error of the LAST attempt (the branch-less
repository-default clone, error `"default"`), not the error of the first
failed attempt (branch `"dev"`), contradicting the claim. -/
theorem clone_raises_last_not_first :
    RepoManager.clone_or_open_repo RepoManager.envAllFail "dev"
      = RepoManager.CloneOutcome.raised ⟨"default"⟩ ∧
    RepoManager.CloneOutcome.raised (RepoManager.GitError.mk "default")
      ≠ RepoManager.CloneOutcome.raised (RepoManager.GitError.mk "dev") := by
  refine ⟨by decide, by decide⟩

/-- C3 amended: for a clone with no valid checkout, `clone_or_open_repo`
tries the requested branch first, then each conventional default-branch
name, then the repository's own default; the first successful attempt wins
and is returned; if every attempt fails, the error raised is the one from
the LAST failed attempt (the branch-less default clone), not the first. -/
theorem clone_fallback_amended (env : RepoManager.CloneEnv) (branch : String)
    (hno : (env.hasGitDir && env.openOk) = false) :
    (∀ (pre : List (Option String)) (br : Option String) (post : List (Option String)),
        RepoManager.candidates branch = pre ++ br :: post →
        (∀ b ∈ pre, RepoManager.attemptFails env b = true) →
        RepoManager.attemptFails env br = false →
        RepoManager.clone_or_open_repo env branch = RepoManager.CloneOutcome.cloned br)
    ∧ (∀ e : RepoManager.GitError,
        (∀ b ∈ RepoManager.candidates branch, RepoManager.attemptFails env b = true) →
        RepoManager.cloneAttempt env none = .error e →
        RepoManager.clone_or_open_repo env branch = RepoManager.CloneOutcome.raised e) := by
  constructor
  · intro pre br post hsplit hpre hbr
    unfold RepoManager.clone_or_open_repo
    rw [hno, if_neg (by simp)]
    rw [hsplit]
    exact tryCandidates_first_success env pre br post none hpre hbr
  · intro e hall hlast
    unfold RepoManager.clone_or_open_repo
    rw [hno, if_neg (by simp)]
    have hform : RepoManager.candidates branch
        = (some branch :: (RepoManager.POSSIBLE_BRANCHES.filter (fun b => b ≠ branch)).map some)
          ++ [none] := rfl
    rw [hform]
    refine tryCandidates_all_fail env _ none e none ?_ hlast
    intro b hb
    exact hall b (by rw [hform]; exact List.mem_append_left _ hb)

/-- C3 witness: concrete runs of the amended theorem — requesting branch
`"dev"` when only `master` clones succeeds yields the `master` clone, and
when all attempts fail the branch-less attempt's error is raised. -/
theorem clone_fallback_amended_witness :
    RepoManager.clone_or_open_repo RepoManager.envMasterOnly "dev"
      = RepoManager.CloneOutcome.cloned (some "master") ∧
    RepoManager.clone_or_open_repo RepoManager.envAllFail "dev"
      = RepoManager.CloneOutcome.raised ⟨"default"⟩ := by
  constructor
  · exact (clone_fallback_amended RepoManager.envMasterOnly "dev" rfl).1
      [some "dev"] (some "master") [some "main", none] rfl (by decide) (by decide)
  · exact (clone_fallback_amended RepoManager.envAllFail "dev" rfl).2
      ⟨"default"⟩ (by decide) rfl

/-- C8: when the OS reports no such process (`psutil.Process(pid)` raises
`NoSuchProcess`), `stop_bot_process` returns normally having delivered no
signal at all. -/
theorem stop_absent_pid_noop (env : ProcessManager.ProcEnv) (pid : Nat)
    (h : env.alive pid = false) :
    ProcessManager.stop_bot_process env pid = [] := by
  unfold ProcessManager.stop_bot_process
  rw [h]
  rfl

/-- C8 witness: an OS with no live processes at all; stopping pid 42 sends
nothing. -/
theorem stop_absent_pid_noop_witness :
    ProcessManager.stop_bot_process ProcessManager.envDead 42 = [] :=
  stop_absent_pid_noop ProcessManager.envDead 42 rfl

/-- C2 counterexample: a bot whose `setup_status` is `"running"` (not
`done`): `restart_bot` nevertheless terminates the recorded process,
spawns a new one and mutates the persisted row — the claimed
`setup_status == done` guard exists only in `start_bot`. -/
theorem lifecycle_guard_counterexample :
    App.botR.setup_status ≠ "done" ∧
    (App.restart_bot App.envH (some App.botR)).actions
      = [App.Action.terminate 7, App.Action.spawn] ∧
    (App.restart_bot App.envH (some App.botR)).bot ≠ some App.botR ∧
    (App.stop_bot App.envH (some App.botR)).actions = [App.Action.terminate 7] := by
  refine ⟨by decide, by decide, by decide, by decide⟩

/-- C2 amended: only `start_bot` is guarded by `setup_status == done` —
when the status is not `done` it performs no process operation, leaves the
row unchanged and redirects to the setup-progress page; `restart_bot` and
`stop_bot` have no such guard and perform their process operations and
mutations regardless of `setup_status`. -/
theorem lifecycle_guard_amended (env : App.HandlerEnv) (bot : App.Bot)
    (h : bot.setup_status ≠ "done") :
    ((App.start_bot env (some bot)).bot = some bot ∧
     (App.start_bot env (some bot)).actions = [] ∧
     (App.start_bot env (some bot)).redirect = App.Redirect.setupProgress)
    ∧ (App.Action.spawn ∈ (App.restart_bot env (some bot)).actions ∧
       (App.restart_bot env (some bot)).bot
         = some { bot with
                  process_pid := some env.spawnPid
                  status := "running"
                  last_started_at := some env.now
                  stats_last_activity := some env.now })
    ∧ (App.stop_bot env (some bot)).bot
         = some { bot with
                  process_pid := none
                  status := "stopped"
                  last_stopped_at := some env.now } := by
  refine ⟨?_, ⟨?_, rfl⟩, rfl⟩
  · simp [App.start_bot, h]
  · simp [App.restart_bot]

/-- C2 witness: the amended guard statement instantiated at a bot whose
provisioning is still running. -/
theorem lifecycle_guard_amended_witness :
    (App.start_bot App.envH (some App.botR)).actions = [] ∧
    App.Action.spawn ∈ (App.restart_bot App.envH (some App.botR)).actions :=
  ⟨(lifecycle_guard_amended App.envH App.botR (by decide)).1.2.1,
   (lifecycle_guard_amended App.envH App.botR (by decide)).2.1.1⟩

/-- Helper: `String.toList` distributes over append. -/
theorem toList_append (a b : String) : (a ++ b).toList = a.toList ++ b.toList := by
  cases a
  cases b
  rfl

/-- Helper: a prefix match survives extending the text on the right. -/
theorem listStartsWith_append (n : List Char) :
    ∀ s t : List Char, listStartsWith n s = true → listStartsWith n (s ++ t) = true := by
  induction n with
  | nil => intro s t _; rfl
  | cons c ns ih =>
    intro s t h
    cases s with
    | nil => simp [listStartsWith] at h
    | cons d ds =>
      simp only [listStartsWith, Bool.and_eq_true, beq_iff_eq] at h
      simp only [List.cons_append, listStartsWith, Bool.and_eq_true, beq_iff_eq]
      exact ⟨h.1, ih ds t h.2⟩

/-- Helper: a substring occurrence survives extending the text on the
right. -/
theorem listContains_append (n : List Char) :
    ∀ h t : List Char, listContains n h = true → listContains n (h ++ t) = true := by
  intro h
  induction h with
  | nil =>
    intro t hc
    cases n with
    | nil =>
      cases t with
      | nil => rfl
      | cons c r => simp [listContains, listStartsWith]
    | cons c r => simp [listContains, List.isEmpty] at hc
  | cons c hs ih =>
    intro t hc
    simp only [listContains, Bool.or_eq_true] at hc
    simp only [List.cons_append, listContains, Bool.or_eq_true]
    cases hc with
    | inl h1 =>
      left
      have := listStartsWith_append n (c :: hs) t h1
      simpa using this
    | inr h2 => right; exact ih t h2

/-- Helper: Python's `needle in hay` is preserved when more text is
appended to `hay`. -/
theorem isSubstring_append (n a b : String) (h : isSubstring n a = true) :
    isSubstring n (a ++ b) = true := by
  unfold isSubstring at h ⊢
  rw [toList_append]
  exact listContains_append _ _ _ h

/-- C4 counterexample: a user env text that already defines `DATABASE_URL`
and a bot with a configured database URL: the provisioning-path
materialization (`_run_bot_setup`, step 2) appends a second
`DATABASE_URL` line anyway, because that injection carries no
already-defined check there. -/
theorem env_injection_counterexample :
    isSubstring "DATABASE_URL" "DATABASE_URL=postgres://user" = true ∧
    App.buildEnvSetup "DATABASE_URL=postgres://user" "tok" (some "postgres://injected")
        "http://localhost:5000" 1
      = "DATABASE_URL=postgres://user\nBOT_TOKEN=tok\nDATABASE_URL=postgres://injected\nMANAGER_URL=http://localhost:5000\nBOT_ID=1" := by
  refine ⟨by decide, by decide⟩

/-- C4 amended: the injections guarded by an already-present check
(`BOT_TOKEN`, `MANAGER_URL`, `BOT_ID` in both paths, and `DATABASE_URL` in
the edit path) are skipped when the key string already occurs in the env
text, so a text defining all four keys passes through `edit_bot`'s rewrite
unchanged; but the provisioning path appends its `DATABASE_URL` entry
unconditionally whenever a database URL is configured, even though the
user declaration already defines that key.  (User-declared text is never
overwritten — injections only append.) -/
theorem env_injection_amended (envText token dbu managerUrl : String) (botId : Nat)
    (h1 : isSubstring "BOT_TOKEN" envText = true)
    (h2 : isSubstring "DATABASE_URL" envText = true)
    (h3 : isSubstring "MANAGER_URL" envText = true)
    (h4 : isSubstring "BOT_ID" envText = true)
    (h5 : dbu ≠ "") :
    App.buildEnvEdit envText token (some dbu) managerUrl botId = envText ∧
    App.buildEnvSetup envText token (some dbu) managerUrl botId
      = envText ++ "\nDATABASE_URL=" ++ dbu := by
  constructor
  · simp [App.buildEnvEdit, h1, h2, h3, h4, h5]
  · have hm1 : isSubstring "MANAGER_URL" (envText ++ "\nDATABASE_URL=" ++ dbu) = true :=
      isSubstring_append _ _ _ (isSubstring_append _ _ _ h3)
    have hb1 : isSubstring "BOT_ID" (envText ++ "\nDATABASE_URL=" ++ dbu) = true :=
      isSubstring_append _ _ _ (isSubstring_append _ _ _ h4)
    simp [App.buildEnvSetup, h1, h5, hm1, hb1]

/-- C4 witness: the amended statement run on a concrete env text defining
all four keys. -/
theorem env_injection_amended_witness :
    App.buildEnvEdit "BOT_TOKEN=a\nDATABASE_URL=b\nMANAGER_URL=c\nBOT_ID=d" "t" (some "x") "m" 5
      = "BOT_TOKEN=a\nDATABASE_URL=b\nMANAGER_URL=c\nBOT_ID=d" ∧
    App.buildEnvSetup "BOT_TOKEN=a\nDATABASE_URL=b\nMANAGER_URL=c\nBOT_ID=d" "t" (some "x") "m" 5
      = "BOT_TOKEN=a\nDATABASE_URL=b\nMANAGER_URL=c\nBOT_ID=d" ++ "\nDATABASE_URL=" ++ "x" :=
  env_injection_amended "BOT_TOKEN=a\nDATABASE_URL=b\nMANAGER_URL=c\nBOT_ID=d" "t" "x" "m" 5
    (by decide) (by decide) (by decide) (by decide) (by decide)

/-- C5: over every provisioning run — whatever subset of the fallible
operations fails — the sequence of persisted `setup_status` values
(starting from the `running` that `create_bot` inserts) only moves along
the forward edges pending → running → {done | failed}: consecutive writes
are equal or follow a forward edge, so a run never leaves `done` or
`failed` and never returns to an earlier value. -/
theorem setup_status_forward (env : App.SetupEnv) (b0 : App.SetupBot) :
    List.Chain' (fun a b => App.allowedEdge a b = true)
      ("running" :: (App.runBotSetup env b0).2) := by
  obtain ⟨c1, cc, c2, c3, c4, c5, c6, c7, c8, sp, n⟩ := env
  cases c1 <;> cases c2 <;> cases c3 <;> cases c4 <;> cases c5 <;> cases c6 <;>
    cases c7 <;> cases c8 <;>
    simp [App.runBotSetup, App.setupFailed, App.updateProgress, App.allowedEdge]

/-- C6: in a provisioning run whose steps 1–9 all succeed, a failure of
the final auto-start spawn leaves `setup_status = done` and only
downgrades the bot's `status` to `stopped`; no `failed` status is ever
persisted by such a run. -/
theorem autostart_degradation (env : App.SetupEnv) (b0 : App.SetupBot)
    (h1 : env.cloneFails = false) (h2 : env.envWriteFails = false)
    (h3 : env.venvFails = false) (h4 : env.venvPythonMissing = false)
    (h5 : env.pipUpgradeFails = false) (h6 : (env.reqExists && env.pipInstallFails) = false)
    (h7 : env.spawnFails = true) :
    (App.runBotSetup env b0).1.setup_status = "done"
    ∧ (App.runBotSetup env b0).1.status = "stopped"
    ∧ "failed" ∉ (App.runBotSetup env b0).2 := by
  obtain ⟨c1, cc, c2, c3, c4, c5, c6, c7, c8, sp, n⟩ := env
  simp only at h1 h2 h3 h4 h5 h6 h7
  subst h1 h2 h3 h4 h5 h7
  simp [App.runBotSetup, App.setupFailed, App.updateProgress, h6]

/-- C6 witness: a concrete run in which everything succeeds except the
final spawn. -/
theorem autostart_degradation_witness :
    (App.runBotSetup App.envSpawnFail App.createBotRow).1.setup_status = "done"
    ∧ (App.runBotSetup App.envSpawnFail App.createBotRow).1.status = "stopped"
    ∧ "failed" ∉ (App.runBotSetup App.envSpawnFail App.createBotRow).2 :=
  autostart_degradation App.envSpawnFail App.createBotRow rfl rfl rfl rfl rfl rfl rfl

/-- C7: whenever the sync part of the manual update (`clone_or_open_repo`
or `pull_latest`) raises, `update_repo` answers with the error flashed to
the caller and — after the rollback — a persisted bot row identical to the
one before the call. -/
theorem update_repo_sync_error_atomic (env : App.UpdateEnv) (bot : App.Bot)
    (h : env.cloneOk = false ∨ env.pullOk = false) :
    App.update_repo env bot = (bot, App.Flash.danger) := by
  cases hco : env.cloneOk with
  | false => simp [App.update_repo, hco]
  | true =>
    have hp : env.pullOk = false := by
      cases h with
      | inl h' => rw [h'] at hco; cases hco
      | inr h' => exact h'
    simp [App.update_repo, hco, hp]

/-- C7 witness: a concrete update whose pull raises. -/
theorem update_repo_sync_error_atomic_witness :
    App.update_repo App.envPullFail App.botR = (App.botR, App.Flash.danger) :=
  update_repo_sync_error_atomic App.envPullFail App.botR (Or.inr rfl)

/-- Helper: characterization of the telemetry 401 test. -/
theorem tokenRejected_iff (h q : Option String) (tok : String) :
    App.tokenRejected h q tok = true ↔
      ∃ t, App.pyOr h q = some t ∧ t ≠ "" ∧ t ≠ tok := by
  unfold App.tokenRejected
  cases hpq : App.pyOr h q with
  | none => simp
  | some t => simp [bne_iff_ne]

/-- C9 counterexample: a caller that supplies the header `X-Bot-Token`
with the empty string — a supplied token differing from the stored token
`"secret"` — is accepted and processed by both telemetry endpoints rather
than rejected with 401, because `if req_token and ...` treats the empty
string as no token. -/
theorem telemetry_empty_token_accepted :
    (App.api_stats_increment (some ("secret", ⟨0, 0⟩)) (some "") none 1 0 false).1
      = App.ApiResp.ok ∧
    (some "" : Option String) ≠ none ∧
    ("" : String) ≠ "secret" ∧
    (App.api_ingest_message (some "secret") (some "") none none none none none).1
      = App.ApiResp.ok := by
  refine ⟨by decide, by decide, by decide, by decide⟩

/-- C9 amended: both telemetry endpoints return 401 exactly when the
effective token — the header value when non-empty, otherwise the query
value — is present, non-empty, and differs from the bot's stored token; a
request with no token, or whose effective token is the empty string, is
accepted and processed as authenticated. -/
theorem telemetry_auth_amended (tok : String) (st : App.Stats)
    (headerTok queryTok : Option String) (im iu : Int) (uit : Bool)
    (userId chatId : Option Int) (mtype mtext : Option String) :
    ((App.api_stats_increment (some (tok, st)) headerTok queryTok im iu uit).1
        = App.ApiResp.unauthorized
      ↔ ∃ t, App.pyOr headerTok queryTok = some t ∧ t ≠ "" ∧ t ≠ tok)
    ∧ ((App.api_ingest_message (some tok) headerTok queryTok userId chatId mtype mtext).1
        = App.ApiResp.unauthorized
      ↔ ∃ t, App.pyOr headerTok queryTok = some t ∧ t ≠ "" ∧ t ≠ tok) := by
  have key := tokenRejected_iff headerTok queryTok tok
  constructor
  · cases htr : App.tokenRejected headerTok queryTok tok with
    | true => simp [App.api_stats_increment, htr, key.mp htr]
    | false =>
      rw [← key, htr]
      simp [App.api_stats_increment, htr]
  · cases htr : App.tokenRejected headerTok queryTok tok with
    | true => simp [App.api_ingest_message, htr, key.mp htr]
    | false =>
      rw [← key, htr]
      simp [App.api_ingest_message, htr]
